import Mathlib

/-!
Shallow embedding of the capability-discovery and dynamic-device-factory core
of the libdyson-neon library (src/libdyson/capability_discovery.py and
src/libdyson/dynamic_device_factory.py), together with theorems checking the
natural-language specification against it.

Telemetry values are modelled by an inductive `Value` (a scalar, a null, or a
two-element previous/current pair); the status and environmental payloads are
association lists from field codes to values, modelling Python dicts.
Floating-point confidences and weights are modelled exactly over ℚ.
-/

namespace Libdyson

/-- A telemetry value: null (Python None), an opaque scalar, or a two-element
previous/current pair as delivered in state-change messages. -/
inductive Value where
  | null : Value
  | scalar : String → Value
  | pair : Value → Value → Value
deriving DecidableEq, Repr

/-- A telemetry payload: an association list from field code to value,
modelling a Python dict (first binding wins on lookup). -/
abbrev DataMap := List (String × Value)

/-- Python `min` on two exact rationals, as applied to float confidences. -/
def pymin (a b : ℚ) : ℚ := if a ≤ b then a else b

/-- Python `str.startswith`: the pattern's characters lead the string's. -/
def strStartsWith (s pat : String) : Bool := pat.data.isPrefixOf s.data

/-- `BasicFanDetector._has_field`: the field key exists in the map and its raw
value is not None. All six detectors share this definition verbatim. -/
def hasField (data : DataMap) (field : String) : Bool :=
  match data.lookup field with
  | some Value.null => false
  | some _ => true
  | none => false

/-- `_has_fields`: all of the listed fields exist with non-null values. -/
def hasFields (data : DataMap) (fields : List String) : Bool :=
  fields.all (fun field => hasField data field)

/-- The `DeviceCapability` enumeration from capability_discovery.py. -/
inductive DeviceCapability where
  | BASIC_FAN_CONTROL
  | BASIC_OSCILLATION
  | NIGHT_MODE
  | SLEEP_TIMER
  | ANGLE_OSCILLATION
  | FRONT_AIRFLOW
  | AUTO_MODE
  | FILTER_MONITORING
  | PM_SENSORS
  | VOC_SENSOR
  | NO2_SENSOR
  | CO2_SENSOR
  | HUMIDITY_SENSOR
  | TEMPERATURE_SENSOR
  | HUMIDIFICATION
  | WATER_HARDNESS
  | HEATING
  | TILT_CONTROL
  | CONTINUOUS_MONITORING
deriving DecidableEq, Repr

open DeviceCapability

/-- `BasicFanDetector.detect`. -/
def basicFanDetect (status_data : DataMap) (_environmental_data : DataMap) :
    List DeviceCapability :=
  (if hasFields status_data ["fpwr", "fnsp"] then [BASIC_FAN_CONTROL] else []) ++
  (if hasField status_data "oson" then [BASIC_OSCILLATION] else []) ++
  (if hasFields status_data ["nmod", "nmdv"] then [NIGHT_MODE] else []) ++
  (if hasField status_data "sltm" then [SLEEP_TIMER] else [])

/-- `BasicFanDetector.get_confidence_score`. -/
def basicFanConfidence (status_data : DataMap) (_environmental_data : DataMap) : ℚ :=
  let confidence : ℚ := 0
  let confidence := if hasFields status_data ["fpwr", "fnsp"]
    then confidence + 0.8 else confidence
  let confidence := if hasField status_data "oson"
    then confidence + 0.15 else confidence
  let confidence := if hasField status_data "sltm"
    then confidence + 0.05 else confidence
  pymin 1 confidence

/-- `AdvancedOscillationDetector.detect`. -/
def advancedOscillationDetect (status_data : DataMap) (_environmental_data : DataMap) :
    List DeviceCapability :=
  if hasFields status_data ["osal", "osau"] then [ANGLE_OSCILLATION] else []

/-- `AdvancedOscillationDetector.get_confidence_score`. -/
def advancedOscillationConfidence (status_data : DataMap)
    (_environmental_data : DataMap) : ℚ :=
  if hasFields status_data ["osal", "osau"] then 0.95
  else if ["osal", "osau"].any (fun field => hasField status_data field) then 0.5
  else 0

/-- `PurificationDetector.detect`. -/
def purificationDetect (status_data : DataMap) (environmental_data : DataMap) :
    List DeviceCapability :=
  (if hasField status_data "auto" then [AUTO_MODE] else []) ++
  (if hasField status_data "cflr" || hasField status_data "hflr"
    then [FILTER_MONITORING] else []) ++
  (if ["p25r", "p10r", "pm25", "pm10"].any
      (fun field => hasField environmental_data field)
    then [PM_SENSORS] else []) ++
  (if hasField status_data "fdir" then [FRONT_AIRFLOW] else [])

/-- `PurificationDetector.get_confidence_score`. -/
def purificationConfidence (status_data : DataMap) (environmental_data : DataMap) : ℚ :=
  let confidence : ℚ := 0
  let confidence := if hasField status_data "auto"
    then confidence + 0.4 else confidence
  let confidence := if hasField status_data "cflr" || hasField status_data "hflr"
    then confidence + 0.4 else confidence
  let confidence := if ["pm25", "pm10", "p25r", "p10r"].any
      (fun field => hasField environmental_data field)
    then confidence + 0.3 else confidence
  let confidence := if hasField status_data "fdir"
    then confidence + 0.1 else confidence
  pymin 1 confidence

/-- `AdvancedEnvironmentalDetector.detect`. -/
def advancedEnvironmentalDetect (_status_data : DataMap)
    (environmental_data : DataMap) : List DeviceCapability :=
  (if hasField environmental_data "va10" then [VOC_SENSOR] else []) ++
  (if hasField environmental_data "noxl" then [NO2_SENSOR] else []) ++
  (if hasField environmental_data "co2r" then [CO2_SENSOR] else []) ++
  (if hasField environmental_data "hact" then [HUMIDITY_SENSOR] else []) ++
  (if hasField environmental_data "tact" then [TEMPERATURE_SENSOR] else [])

/-- `AdvancedEnvironmentalDetector.get_confidence_score`: the number of the
three advanced fields present, divided by the length of the field list. -/
def advancedEnvironmentalConfidence (_status_data : DataMap)
    (environmental_data : DataMap) : ℚ :=
  let advanced_fields := ["va10", "noxl", "co2r"]
  let detected_count := advanced_fields.countP
    (fun field => hasField environmental_data field)
  (detected_count : ℚ) / (advanced_fields.length : ℚ)

/-- `HeatingDetector.detect`. -/
def heatingDetect (status_data : DataMap) (_environmental_data : DataMap) :
    List DeviceCapability :=
  if hasField status_data "hmod" then [HEATING] else []

/-- `HeatingDetector.get_confidence_score`. -/
def heatingConfidence (status_data : DataMap) (_environmental_data : DataMap) : ℚ :=
  if hasField status_data "hmod" then 1 else 0

/-- `HumidificationDetector.detect`. -/
def humidificationDetect (status_data : DataMap) (_environmental_data : DataMap) :
    List DeviceCapability :=
  (if hasField status_data "hume" then [HUMIDIFICATION] else []) ++
  (if hasField status_data "wath" then [WATER_HARDNESS] else [])

/-- `HumidificationDetector.get_confidence_score`. -/
def humidificationConfidence (status_data : DataMap)
    (_environmental_data : DataMap) : ℚ :=
  if hasField status_data "hume" then 1 else 0

/-- One entry of the `detector_results` list built by
`DeviceCapabilityDiscovery.discover_capabilities`: the detector's class name,
the tags it detected, and its confidence. -/
structure DetectorResult where
  detector : String
  capabilities : List DeviceCapability
  confidence : ℚ
deriving DecidableEq, Repr

/-- The `is_relevant` flag: the detector found at least one tag or reported
positive confidence. -/
def isRelevant (r : DetectorResult) : Bool :=
  decide (0 < r.capabilities.length) || decide ((0 : ℚ) < r.confidence)

/-- The six detector runs, in the fixed registration order of
`DeviceCapabilityDiscovery.__init__`. -/
def detectorResults (status_data environmental_data : DataMap) :
    List DetectorResult :=
  [ ⟨"BasicFanDetector",
      basicFanDetect status_data environmental_data,
      basicFanConfidence status_data environmental_data⟩,
    ⟨"AdvancedOscillationDetector",
      advancedOscillationDetect status_data environmental_data,
      advancedOscillationConfidence status_data environmental_data⟩,
    ⟨"PurificationDetector",
      purificationDetect status_data environmental_data,
      purificationConfidence status_data environmental_data⟩,
    ⟨"AdvancedEnvironmentalDetector",
      advancedEnvironmentalDetect status_data environmental_data,
      advancedEnvironmentalConfidence status_data environmental_data⟩,
    ⟨"HeatingDetector",
      heatingDetect status_data environmental_data,
      heatingConfidence status_data environmental_data⟩,
    ⟨"HumidificationDetector",
      humidificationDetect status_data environmental_data,
      humidificationConfidence status_data environmental_data⟩ ]

/-- The per-detector weight of `_calculate_intelligent_confidence`, keyed on
the detector class name and on whether it found at least one capability. -/
def detectorWeight (detector_name : String) (capabilities_found : Nat) : ℚ :=
  if detector_name = "BasicFanDetector" then
    (if 0 < capabilities_found then 3.0 else 1.0)
  else if detector_name = "AdvancedOscillationDetector" then
    (if 0 < capabilities_found then 2.5 else 0.5)
  else if detector_name = "PurificationDetector" then
    (if 0 < capabilities_found then 3.0 else 1.0)
  else if detector_name = "AdvancedEnvironmentalDetector" then
    (if 0 < capabilities_found then 2.5 else 0.5)
  else if detector_name = "HeatingDetector" ∨ detector_name = "HumidificationDetector"
    then (if 0 < capabilities_found then 2.0 else 0.5)
  else 1.0

/-- `_calculate_coherence_bonus`: additive bonuses for coherent capability
combinations, capped at 0.3. -/
def coherenceBonus (capabilities : List DeviceCapability) : ℚ :=
  let bonus : ℚ := 0
  let bonus := if capabilities.contains BASIC_FAN_CONTROL &&
      capabilities.contains BASIC_OSCILLATION
    then bonus + 0.1 else bonus
  let bonus := if capabilities.contains AUTO_MODE &&
      capabilities.contains FILTER_MONITORING &&
      capabilities.contains PM_SENSORS
    then bonus + 0.15 else bonus
  let bonus := if 2 ≤ [VOC_SENSOR, NO2_SENSOR, CO2_SENSOR].countP
      (fun c => capabilities.contains c)
    then bonus + 0.2 else bonus
  let bonus := if capabilities.contains HEATING && capabilities.contains AUTO_MODE
    then bonus + 0.15 else bonus
  let bonus := if capabilities.contains HUMIDIFICATION &&
      capabilities.contains HUMIDITY_SENSOR
    then bonus + 0.15 else bonus
  let bonus := if capabilities.contains ANGLE_OSCILLATION &&
      !(capabilities.contains AUTO_MODE)
    then bonus + 0.2 else bonus
  let bonus := if capabilities.contains HUMIDITY_SENSOR &&
      capabilities.contains TEMPERATURE_SENSOR
    then bonus + 0.1 else bonus
  pymin 0.3 bonus

/-- `_calculate_intelligent_confidence`: weighted mean of the relevant
detectors' confidences plus the coherence bonus, capped at 1. The fold mirrors
the accumulation loop over `relevant_results`. -/
def calculateIntelligentConfidence (detector_results : List DetectorResult)
    (all_capabilities : List DeviceCapability) : ℚ :=
  if detector_results.isEmpty then 0
  else
    let relevant_results := detector_results.filter isRelevant
    if relevant_results.isEmpty then 0
    else
      let totals := relevant_results.foldl
        (fun (acc : ℚ × ℚ) r =>
          let weight := detectorWeight r.detector r.capabilities.length
          (acc.1 + r.confidence * weight, acc.2 + weight))
        (0, 0)
      let base_confidence := if 0 < totals.2 then totals.1 / totals.2 else 0
      pymin 1 (base_confidence + coherenceBonus all_capabilities)

/-- Nonempty intersection of a capability set with a query list, as in
`DeviceCapabilities.has_any_capability`. -/
def capsHasAny (capabilities : List DeviceCapability)
    (query : List DeviceCapability) : Bool :=
  query.any (fun c => capabilities.contains c)

/-- `_suggest_device_type`: the priority-ordered device-type-hint classifier. -/
def suggestDeviceType (capabilities : List DeviceCapability) : String :=
  if capsHasAny capabilities [VOC_SENSOR, NO2_SENSOR, CO2_SENSOR] then
    if capabilities.contains HEATING then "AdvancedPurifierFanWithHeating"
    else if capabilities.contains HUMIDIFICATION then
      "AdvancedPurifierFanWithHumidification"
    else "AdvancedPurifierFan"
  else if capabilities.contains HEATING && capabilities.contains AUTO_MODE then
    "BasicPurifierFanWithHeating"
  else if capabilities.contains HUMIDIFICATION && capabilities.contains AUTO_MODE then
    "BasicPurifierFanWithHumidification"
  else if capsHasAny capabilities [AUTO_MODE, FILTER_MONITORING] then
    if capabilities.contains ANGLE_OSCILLATION then "BasicPurifierFanWithOscillation"
    else "BasicPurifierFan"
  else if capabilities.contains ANGLE_OSCILLATION then "AdvancedOscillationFan"
  else if capabilities.contains BASIC_FAN_CONTROL then "BasicFan"
  else "UnknownDevice"

/-- The `DeviceCapabilities` dataclass. -/
structure DeviceCapabilities where
  discovered_capabilities : List DeviceCapability
  status_fields : List String
  environmental_fields : List String
  device_type_hint : String
  confidence_score : ℚ
deriving DecidableEq, Repr

/-- `DeviceCapabilities.has_capability`. -/
def DeviceCapabilities.hasCapability (dc : DeviceCapabilities)
    (c : DeviceCapability) : Bool :=
  dc.discovered_capabilities.contains c

/-- `DeviceCapabilities.has_any_capability`. -/
def DeviceCapabilities.hasAnyCapability (dc : DeviceCapabilities)
    (query : List DeviceCapability) : Bool :=
  capsHasAny dc.discovered_capabilities query

/-- The `all_capabilities.update(capabilities)` accumulation of the discovery
loop: the union, in registration order, of every detector's reported tags. -/
def allCapabilitiesList (results : List DetectorResult) : List DeviceCapability :=
  results.foldl (fun acc r => acc ++ r.capabilities) []

/-- `DeviceCapabilityDiscovery.discover_capabilities`: run all six detectors,
union their tags, compute the overall confidence and the hint. -/
def discoverCapabilities (status_data environmental_data : DataMap) :
    DeviceCapabilities :=
  let results := detectorResults status_data environmental_data
  let all_capabilities := allCapabilitiesList results
  { discovered_capabilities := all_capabilities
    status_fields := status_data.map Prod.fst
    environmental_fields := environmental_data.map Prod.fst
    device_type_hint := suggestDeviceType all_capabilities
    confidence_score := calculateIntelligentConfidence results all_capabilities }

/-- The six concrete device-control variants the factory can instantiate. -/
inductive VariantId where
  | AdvancedPurifierFan
  | BasicPurifierFanWithHeating
  | BasicPurifierFanWithHumidification
  | BasicPurifierFanWithOscillation
  | AdvancedOscillationFan
  | BasicFan
deriving DecidableEq, Repr

/-- `DynamicDeviceFactory._create_device_from_capabilities`: the
priority-ordered variant selection over the discovered capability set. -/
def createDeviceVariant (capabilities : DeviceCapabilities) : Option VariantId :=
  if capabilities.hasAnyCapability [VOC_SENSOR, NO2_SENSOR, CO2_SENSOR] then
    some VariantId.AdvancedPurifierFan
  else if capabilities.hasCapability AUTO_MODE &&
      capabilities.hasCapability FILTER_MONITORING &&
      capabilities.hasCapability HEATING then
    some VariantId.BasicPurifierFanWithHeating
  else if capabilities.hasCapability AUTO_MODE &&
      capabilities.hasCapability FILTER_MONITORING &&
      capabilities.hasCapability HUMIDIFICATION then
    some VariantId.BasicPurifierFanWithHumidification
  else if capabilities.hasCapability AUTO_MODE &&
      capabilities.hasCapability FILTER_MONITORING then
    some VariantId.BasicPurifierFanWithOscillation
  else if capabilities.hasCapability ANGLE_OSCILLATION &&
      !(capabilities.hasCapability AUTO_MODE) then
    some VariantId.AdvancedOscillationFan
  else if capabilities.hasCapability BASIC_FAN_CONTROL then
    some VariantId.BasicFan
  else none

/-- `DynamicDeviceFactory._fallback_to_static_mapping`: the static
device-type-string table, matched by literal leading substring. -/
def fallbackToStaticMapping (device_type : String) : Option VariantId :=
  if strStartsWith device_type "739" then some VariantId.AdvancedOscillationFan
  else if strStartsWith device_type "438" then
    some VariantId.BasicPurifierFanWithOscillation
  else if strStartsWith device_type "527" then
    some VariantId.BasicPurifierFanWithHeating
  else if strStartsWith device_type "358" then
    some VariantId.BasicPurifierFanWithHumidification
  else if strStartsWith device_type "664" then some VariantId.AdvancedPurifierFan
  else none

/-- Python truthiness of an optional dict argument: None and the empty dict
are falsy. -/
def optIsFalsy : Option DataMap → Bool
  | none => true
  | some m => m.isEmpty

/-- `DynamicDeviceFactory.create_device_from_capabilities` (the public entry
point): with no telemetry, fall back to the static table; otherwise discover
capabilities, select a variant, and fall back on no match. The serial and
credential arguments only parameterize the constructed object, never the
selection. -/
def createDeviceFromTelemetry (_serial _credential device_type : String)
    (status_data environmental_data : Option DataMap) : Option VariantId :=
  if optIsFalsy status_data && optIsFalsy environmental_data then
    fallbackToStaticMapping device_type
  else
    let capabilities := discoverCapabilities (status_data.getD [])
      (environmental_data.getD [])
    match createDeviceVariant capabilities with
    | some device_instance => some device_instance
    | none => fallbackToStaticMapping device_type

/-! ### Specification-side definitions

The following definitions transcribe the natural-language specification's
wording (rather than the source), so that the source-derived definitions above
can be compared against them. -/

/-- Spec §3: for a two-element previous/current pair, only the current element
is semantically relevant; scalars resolve to themselves. -/
def specResolveValue : Value → Value
  | Value.pair _previous current => current
  | v => v

/-- Spec §3: a field is present iff the key exists and its resolved value is
not null. -/
def specFieldPresent (data : DataMap) (field : String) : Bool :=
  match data.lookup field with
  | some v => !(specResolveValue v == Value.null)
  | none => false

/-- Spec §4.4: the factory's variant-selection decision list, transcribed
rule by rule from the specification text. -/
def specSelectVariant (caps : List DeviceCapability) : Option VariantId :=
  if caps.contains VOC_SENSOR || caps.contains NO2_SENSOR ||
      caps.contains CO2_SENSOR then
    some VariantId.AdvancedPurifierFan
  else if caps.contains AUTO_MODE && caps.contains FILTER_MONITORING &&
      caps.contains HEATING then
    some VariantId.BasicPurifierFanWithHeating
  else if caps.contains AUTO_MODE && caps.contains FILTER_MONITORING &&
      caps.contains HUMIDIFICATION then
    some VariantId.BasicPurifierFanWithHumidification
  else if caps.contains AUTO_MODE && caps.contains FILTER_MONITORING then
    some VariantId.BasicPurifierFanWithOscillation
  else if caps.contains ANGLE_OSCILLATION && !(caps.contains AUTO_MODE) then
    some VariantId.AdvancedOscillationFan
  else if caps.contains BASIC_FAN_CONTROL then
    some VariantId.BasicFan
  else none

/-- Spec §4.3: the device-type-hint decision list, transcribed rule by rule
from the specification text. -/
def specDeviceTypeHint (caps : List DeviceCapability) : String :=
  if caps.contains VOC_SENSOR || caps.contains NO2_SENSOR ||
      caps.contains CO2_SENSOR then
    if caps.contains HEATING then "AdvancedPurifierFanWithHeating"
    else if caps.contains HUMIDIFICATION then
      "AdvancedPurifierFanWithHumidification"
    else "AdvancedPurifierFan"
  else if caps.contains HEATING && caps.contains AUTO_MODE then
    "BasicPurifierFanWithHeating"
  else if caps.contains HUMIDIFICATION && caps.contains AUTO_MODE then
    "BasicPurifierFanWithHumidification"
  else if caps.contains AUTO_MODE || caps.contains FILTER_MONITORING then
    if caps.contains ANGLE_OSCILLATION then "BasicPurifierFanWithOscillation"
    else "BasicPurifierFan"
  else if caps.contains ANGLE_OSCILLATION then "AdvancedOscillationFan"
  else if caps.contains BASIC_FAN_CONTROL then "BasicFan"
  else "UnknownDevice"

/-- Spec §4.2 step 4: the weighted-mean base confidence over relevant
detectors, written as a quotient of two sums (with the weight table of the
specification, which coincides with `detectorWeight`). -/
def specBaseConfidence (results : List DetectorResult) : ℚ :=
  let relevant := results.filter isRelevant
  (relevant.map
    (fun r => r.confidence * detectorWeight r.detector r.capabilities.length)).sum /
  (relevant.map (fun r => detectorWeight r.detector r.capabilities.length)).sum

/-- Spec §4.2 step 5: the coherence bonus as an order-independent sum of the
seven additive rules, capped at 0.30. -/
def specCoherenceBonus (caps : List DeviceCapability) : ℚ :=
  pymin 0.3
    ((if caps.contains BASIC_FAN_CONTROL && caps.contains BASIC_OSCILLATION
        then (0.1 : ℚ) else 0) +
     (if caps.contains AUTO_MODE && caps.contains FILTER_MONITORING &&
          caps.contains PM_SENSORS
        then (0.15 : ℚ) else 0) +
     (if 2 ≤ [VOC_SENSOR, NO2_SENSOR, CO2_SENSOR].countP
          (fun c => caps.contains c)
        then (0.2 : ℚ) else 0) +
     (if caps.contains HEATING && caps.contains AUTO_MODE
        then (0.15 : ℚ) else 0) +
     (if caps.contains HUMIDIFICATION && caps.contains HUMIDITY_SENSOR
        then (0.15 : ℚ) else 0) +
     (if caps.contains ANGLE_OSCILLATION && !(caps.contains AUTO_MODE)
        then (0.2 : ℚ) else 0) +
     (if caps.contains HUMIDITY_SENSOR && caps.contains TEMPERATURE_SENSOR
        then (0.1 : ℚ) else 0))

/-- Every status-map field code inspected by some shipped detector. -/
def recognizedStatusFields : List String :=
  ["fpwr", "fnsp", "oson", "nmod", "nmdv", "sltm", "osal", "osau",
   "auto", "cflr", "hflr", "fdir", "hmod", "hume", "wath"]

/-- Every environmental-map field code inspected by some shipped detector. -/
def recognizedEnvironmentalFields : List String :=
  ["p25r", "p10r", "pm25", "pm10", "va10", "noxl", "co2r", "hact", "tact"]

/-! ### Shared helper lemmas -/

theorem hasField_nil (field : String) : hasField [] field = false := rfl

theorem pymin_le_left (a b : ℚ) : pymin a b ≤ a := by
  unfold pymin
  split_ifs with h
  · exact le_refl a
  · exact le_of_not_le h

theorem pymin_nonneg (a b : ℚ) (ha : 0 ≤ a) (hb : 0 ≤ b) : 0 ≤ pymin a b := by
  unfold pymin
  split_ifs <;> assumption

theorem detectorWeight_pos (detector_name : String) (capabilities_found : Nat) :
    0 < detectorWeight detector_name capabilities_found := by
  unfold detectorWeight
  split_ifs <;> norm_num

theorem detectorWeight_nonneg (detector_name : String) (capabilities_found : Nat) :
    0 ≤ detectorWeight detector_name capabilities_found :=
  le_of_lt (detectorWeight_pos detector_name capabilities_found)

set_option maxHeartbeats 1000000 in
theorem coherenceBonus_nonneg (caps : List DeviceCapability) :
    0 ≤ coherenceBonus caps := by
  simp only [coherenceBonus]
  split_ifs <;> norm_num [pymin]

set_option maxHeartbeats 1000000 in
theorem coherenceBonus_eq_spec (caps : List DeviceCapability) :
    coherenceBonus caps = specCoherenceBonus caps := by
  simp only [coherenceBonus, specCoherenceBonus]
  split_ifs <;> norm_num [pymin]

/-- The step function of the confidence-accumulation loop. -/
def totalsStep (acc : ℚ × ℚ) (r : DetectorResult) : ℚ × ℚ :=
  let weight := detectorWeight r.detector r.capabilities.length
  (acc.1 + r.confidence * weight, acc.2 + weight)

theorem foldl_totalsStep (l : List DetectorResult) (a b : ℚ) :
    l.foldl totalsStep (a, b) =
      (a + (l.map
        (fun r => r.confidence * detectorWeight r.detector r.capabilities.length)).sum,
       b + (l.map
        (fun r => detectorWeight r.detector r.capabilities.length)).sum) := by
  induction l generalizing a b with
  | nil => simp
  | cons r t ih =>
      simp only [List.foldl_cons, List.map_cons, List.sum_cons, totalsStep, ih]
      simp only [Prod.mk.injEq]
      exact ⟨by ring, by ring⟩

theorem calculateIntelligentConfidence_def (results : List DetectorResult)
    (caps : List DeviceCapability) :
    calculateIntelligentConfidence results caps =
      if results.isEmpty then 0
      else if (results.filter isRelevant).isEmpty then 0
      else
        let totals := (results.filter isRelevant).foldl totalsStep (0, 0)
        pymin 1 ((if 0 < totals.2 then totals.1 / totals.2 else 0) +
          coherenceBonus caps) := rfl

theorem relevant_filter_capabilities_nil (results : List DetectorResult)
    (h : results.filter isRelevant = []) :
    ∀ r ∈ results, r.capabilities = [] := by
  intro r hr
  have hnot : ¬(isRelevant r = true) := by
    have := List.filter_eq_nil_iff.mp h
    exact this r hr
  simp only [isRelevant, Bool.or_eq_true, decide_eq_true_eq] at hnot
  push_neg at hnot
  exact List.length_eq_zero.mp (Nat.le_zero.mp hnot.1)

theorem allCapabilitiesList_append (results : List DetectorResult)
    (acc : List DeviceCapability) :
    results.foldl (fun a r => a ++ r.capabilities) acc =
      acc ++ results.foldl (fun a r => a ++ r.capabilities) [] := by
  induction results generalizing acc with
  | nil => simp
  | cons r t ih =>
      simp only [List.foldl_cons, List.nil_append]
      rw [ih (acc ++ r.capabilities), ih r.capabilities, List.append_assoc]

theorem allCapabilitiesList_eq_nil (results : List DetectorResult)
    (h : ∀ r ∈ results, r.capabilities = []) :
    allCapabilitiesList results = [] := by
  induction results with
  | nil => rfl
  | cons r t ih =>
      have hr : r.capabilities = [] := h r (List.mem_cons_self r t)
      simp only [allCapabilitiesList, List.foldl_cons, List.nil_append, hr]
      exact ih (fun x hx => h x (List.mem_cons_of_mem r hx))

/-! ### Claim theorems -/

/-- C1: for every capability set, the factory's variant selection follows
exactly the first-match-wins priority order of spec §4.4: advanced sensors →
AdvancedPurifierFan; auto+filter+heating → BasicPurifierFanWithHeating;
auto+filter+humidification → BasicPurifierFanWithHumidification; auto+filter →
BasicPurifierFanWithOscillation; angle-oscillation without auto →
AdvancedOscillationFan; basic fan control → BasicFan; otherwise none. -/
theorem factory_variant_selection_priority (c : DeviceCapabilities) :
    createDeviceVariant c = specSelectVariant c.discovered_capabilities := by
  simp [createDeviceVariant, specSelectVariant, DeviceCapabilities.hasAnyCapability,
    DeviceCapabilities.hasCapability, capsHasAny, List.any_cons, List.any_nil,
    Bool.or_false, Bool.or_assoc]

/-- C2: the device-type hint is a pure function of the discovered capability
set, evaluated in exactly the first-match-wins priority order of spec §4.3,
with the advanced branch refined by heating/humidification and the
auto-or-filter branch refined by angle oscillation. -/
theorem device_type_hint_priority (caps : List DeviceCapability) :
    suggestDeviceType caps = specDeviceTypeHint caps := by
  simp [suggestDeviceType, specDeviceTypeHint, capsHasAny, List.any_cons,
    List.any_nil, Bool.or_false, Bool.or_assoc]

/-- C6 counterexample: a key whose two-element pair value has a null current
element still counts as present for the detectors, because `_has_field` only
checks that the raw dict value is not None and never resolves the pair. -/
theorem field_presence_pair_counterexample :
    hasField [("hume", Value.pair (Value.scalar "OFF") Value.null)] "hume" = true ∧
    specFieldPresent [("hume", Value.pair (Value.scalar "OFF") Value.null)] "hume"
      = false := by decide

/-- C6 amended: a field counts as present for detection iff the key exists in
the map and its raw (unresolved) value is not null; pair values are never
resolved to their current element by the detection layer. -/
theorem field_presence_raw_value (data : DataMap) (field : String) :
    hasField data field = true ↔
      ∃ v, data.lookup field = some v ∧ v ≠ Value.null := by
  unfold hasField
  cases h : data.lookup field with
  | none => simp
  | some v => cases v <;> simp [h]

/-- C8: the AdvancedOscillation detector reports exactly 0.95 when both osal
and osau are present, 0.5 when exactly one is, 0 otherwise; and the
AdvancedEnvironmental detector reports exactly the count of va10, noxl, co2r
present in the environmental map divided by 3. -/
theorem oscillation_and_environmental_confidence (s e : DataMap) :
    advancedOscillationConfidence s e =
      (if hasField s "osal" && hasField s "osau" then (0.95 : ℚ)
       else if hasField s "osal" ≠ hasField s "osau" then (0.5 : ℚ)
       else 0) ∧
    advancedEnvironmentalConfidence s e =
      ((if hasField e "va10" then (1 : ℚ) else 0) +
       (if hasField e "noxl" then (1 : ℚ) else 0) +
       (if hasField e "co2r" then (1 : ℚ) else 0)) / 3 := by
  cases h1 : hasField s "osal" <;> cases h2 : hasField s "osau" <;>
    cases h3 : hasField e "va10" <;> cases h4 : hasField e "noxl" <;>
    cases h5 : hasField e "co2r" <;>
    simp [advancedOscillationConfidence, advancedEnvironmentalConfidence,
      hasFields, h1, h2, h3, h4, h5] <;> norm_num

/-- C9: the hint classifier and the factory diverge on the capability set
consisting of angle oscillation and filter monitoring without auto mode: the
hint is BasicPurifierFanWithOscillation while the factory selects the
AdvancedOscillationFan variant. -/
theorem hint_factory_divergence :
    suggestDeviceType [ANGLE_OSCILLATION, FILTER_MONITORING] =
      "BasicPurifierFanWithOscillation" ∧
    createDeviceVariant
      { discovered_capabilities := [ANGLE_OSCILLATION, FILTER_MONITORING]
        status_fields := []
        environmental_fields := []
        device_type_hint := "BasicPurifierFanWithOscillation"
        confidence_score := 0 } = some VariantId.AdvancedOscillationFan := by
  decide

/-- C7: with both telemetry maps absent or empty, device creation skips
discovery and is decided purely by the static literal-prefix table on the
device-type string: 739, 438, 527, 358, 664 map to their variants and every
other string yields none rather than an exception. -/
theorem empty_telemetry_static_fallback (serial credential device_type : String)
    (status_data environmental_data : Option DataMap)
    (hs : optIsFalsy status_data = true) (he : optIsFalsy environmental_data = true) :
    createDeviceFromTelemetry serial credential device_type
        status_data environmental_data =
      (if strStartsWith device_type "739" then some VariantId.AdvancedOscillationFan
       else if strStartsWith device_type "438" then
         some VariantId.BasicPurifierFanWithOscillation
       else if strStartsWith device_type "527" then
         some VariantId.BasicPurifierFanWithHeating
       else if strStartsWith device_type "358" then
         some VariantId.BasicPurifierFanWithHumidification
       else if strStartsWith device_type "664" then some VariantId.AdvancedPurifierFan
       else none) := by
  unfold createDeviceFromTelemetry
  rw [hs, he]
  simp [fallbackToStaticMapping]

/-- Witness for C7 at a concrete unmatched device-type string. -/
theorem empty_telemetry_static_fallback_witness :
    optIsFalsy (none : Option DataMap) = true ∧
    createDeviceFromTelemetry "SERIAL" "CRED" "999" none none = none := by
  refine ⟨rfl, ?_⟩
  rw [empty_telemetry_static_fallback "SERIAL" "CRED" "999" none none rfl rfl]
  decide

theorem detectorWeight_humidification_eval (n : Nat) :
    detectorWeight "HumidificationDetector" n = if 0 < n then 2.0 else 0.5 := by
  simp [detectorWeight]

/-- C10: a maximal confidence score does not imply a recognized device. -/
theorem max_confidence_unknown_device :
    (discoverCapabilities [("hume", Value.scalar "HUMD")] []).confidence_score = 1 ∧
    (discoverCapabilities [("hume", Value.scalar "HUMD")] []).device_type_hint =
      "UnknownDevice" ∧
    createDeviceVariant (discoverCapabilities [("hume", Value.scalar "HUMD")] []) =
      none := by
  have h1 : hasField [("hume", Value.scalar "HUMD")] "fpwr" = false := by decide
  have h2 : hasField [("hume", Value.scalar "HUMD")] "fnsp" = false := by decide
  have h3 : hasField [("hume", Value.scalar "HUMD")] "oson" = false := by decide
  have h4 : hasField [("hume", Value.scalar "HUMD")] "nmod" = false := by decide
  have h5 : hasField [("hume", Value.scalar "HUMD")] "nmdv" = false := by decide
  have h6 : hasField [("hume", Value.scalar "HUMD")] "sltm" = false := by decide
  have h7 : hasField [("hume", Value.scalar "HUMD")] "osal" = false := by decide
  have h8 : hasField [("hume", Value.scalar "HUMD")] "osau" = false := by decide
  have h9 : hasField [("hume", Value.scalar "HUMD")] "auto" = false := by decide
  have h10 : hasField [("hume", Value.scalar "HUMD")] "cflr" = false := by decide
  have h11 : hasField [("hume", Value.scalar "HUMD")] "hflr" = false := by decide
  have h12 : hasField [("hume", Value.scalar "HUMD")] "fdir" = false := by decide
  have h13 : hasField [("hume", Value.scalar "HUMD")] "hmod" = false := by decide
  have h14 : hasField [("hume", Value.scalar "HUMD")] "wath" = false := by decide
  have h15 : hasField [("hume", Value.scalar "HUMD")] "hume" = true := by decide
  have cb : basicFanConfidence [("hume", Value.scalar "HUMD")] [] = 0 := by
    norm_num [basicFanConfidence, hasFields, pymin, h1, h2, h3, h6]
  have co : advancedOscillationConfidence [("hume", Value.scalar "HUMD")] [] = 0 := by
    norm_num [advancedOscillationConfidence, hasFields, h7, h8]
  have cp : purificationConfidence [("hume", Value.scalar "HUMD")] [] = 0 := by
    norm_num [purificationConfidence, pymin, hasField_nil, h9, h10, h11, h12]
  have ce : advancedEnvironmentalConfidence [("hume", Value.scalar "HUMD")] [] = 0 := by
    norm_num [advancedEnvironmentalConfidence, hasField_nil]
  have ch : heatingConfidence [("hume", Value.scalar "HUMD")] [] = 0 := by
    norm_num [heatingConfidence, h13]
  have cu : humidificationConfidence [("hume", Value.scalar "HUMD")] [] = 1 := by
    norm_num [humidificationConfidence, h15]
  have db : basicFanDetect [("hume", Value.scalar "HUMD")] [] = [] := by
    simp [basicFanDetect, hasFields, h1, h2, h3, h4, h5, h6]
  have dao : advancedOscillationDetect [("hume", Value.scalar "HUMD")] [] = [] := by
    simp [advancedOscillationDetect, hasFields, h7, h8]
  have dp : purificationDetect [("hume", Value.scalar "HUMD")] [] = [] := by
    simp [purificationDetect, hasField_nil, h9, h10, h11, h12]
  have de : advancedEnvironmentalDetect [("hume", Value.scalar "HUMD")] [] = [] := by
    simp [advancedEnvironmentalDetect, hasField_nil]
  have dh : heatingDetect [("hume", Value.scalar "HUMD")] [] = [] := by
    simp [heatingDetect, h13]
  have du : humidificationDetect [("hume", Value.scalar "HUMD")] [] =
      [HUMIDIFICATION] := by
    simp [humidificationDetect, h14, h15]
  have hres : detectorResults [("hume", Value.scalar "HUMD")] [] =
      [ ⟨"BasicFanDetector", [], 0⟩,
        ⟨"AdvancedOscillationDetector", [], 0⟩,
        ⟨"PurificationDetector", [], 0⟩,
        ⟨"AdvancedEnvironmentalDetector", [], 0⟩,
        ⟨"HeatingDetector", [], 0⟩,
        ⟨"HumidificationDetector", [HUMIDIFICATION], 1⟩ ] := by
    simp [detectorResults, cb, co, cp, ce, ch, cu, db, dao, dp, de, dh, du]
  have hcaps : allCapabilitiesList
      (detectorResults [("hume", Value.scalar "HUMD")] []) = [HUMIDIFICATION] := by
    rw [hres]; simp [allCapabilitiesList]
  have hfil : (detectorResults [("hume", Value.scalar "HUMD")] []).filter isRelevant =
      [⟨"HumidificationDetector", [HUMIDIFICATION], 1⟩] := by
    rw [hres]
    norm_num [List.filter_cons, isRelevant]
  have hbonus : coherenceBonus [HUMIDIFICATION] = 0 := by
    simp [coherenceBonus, pymin]
    norm_num
  have hconf : calculateIntelligentConfidence
      (detectorResults [("hume", Value.scalar "HUMD")] [])
      [HUMIDIFICATION] = 1 := by
    rw [calculateIntelligentConfidence_def, hfil, hres]
    norm_num [List.foldl_cons, List.foldl_nil, totalsStep,
      detectorWeight_humidification_eval, hbonus, pymin]
  refine ⟨?_, ?_, ?_⟩
  · rw [show (discoverCapabilities [("hume", Value.scalar "HUMD")] []).confidence_score
      = calculateIntelligentConfidence
          (detectorResults [("hume", Value.scalar "HUMD")] [])
          (allCapabilitiesList (detectorResults [("hume", Value.scalar "HUMD")] []))
      from rfl, hcaps, hconf]
  · rw [show (discoverCapabilities [("hume", Value.scalar "HUMD")] []).device_type_hint
      = suggestDeviceType
          (allCapabilitiesList (detectorResults [("hume", Value.scalar "HUMD")] []))
      from rfl, hcaps]
    decide
  · have hdisc : (discoverCapabilities
        [("hume", Value.scalar "HUMD")] []).discovered_capabilities =
        [HUMIDIFICATION] := by
      rw [show (discoverCapabilities
          [("hume", Value.scalar "HUMD")] []).discovered_capabilities
        = allCapabilitiesList (detectorResults [("hume", Value.scalar "HUMD")] [])
        from rfl, hcaps]
    simp [createDeviceVariant, DeviceCapabilities.hasAnyCapability,
      DeviceCapabilities.hasCapability, capsHasAny, hdisc]
/-- C5: when neither map contains any recognized field, discovery returns
confidence 0, the UnknownDevice sentinel hint, and an empty capability set. -/
theorem unrecognized_fields_unknown_device (s e : DataMap)
    (hs : ∀ f ∈ recognizedStatusFields, hasField s f = false)
    (he : ∀ f ∈ recognizedEnvironmentalFields, hasField e f = false) :
    (discoverCapabilities s e).confidence_score = 0 ∧
    (discoverCapabilities s e).device_type_hint = "UnknownDevice" ∧
    (discoverCapabilities s e).discovered_capabilities = [] := by
  have h1 : hasField s "fpwr" = false := hs _ (by simp [recognizedStatusFields])
  have h2 : hasField s "fnsp" = false := hs _ (by simp [recognizedStatusFields])
  have h3 : hasField s "oson" = false := hs _ (by simp [recognizedStatusFields])
  have h4 : hasField s "nmod" = false := hs _ (by simp [recognizedStatusFields])
  have h5 : hasField s "nmdv" = false := hs _ (by simp [recognizedStatusFields])
  have h6 : hasField s "sltm" = false := hs _ (by simp [recognizedStatusFields])
  have h7 : hasField s "osal" = false := hs _ (by simp [recognizedStatusFields])
  have h8 : hasField s "osau" = false := hs _ (by simp [recognizedStatusFields])
  have h9 : hasField s "auto" = false := hs _ (by simp [recognizedStatusFields])
  have h10 : hasField s "cflr" = false := hs _ (by simp [recognizedStatusFields])
  have h11 : hasField s "hflr" = false := hs _ (by simp [recognizedStatusFields])
  have h12 : hasField s "fdir" = false := hs _ (by simp [recognizedStatusFields])
  have h13 : hasField s "hmod" = false := hs _ (by simp [recognizedStatusFields])
  have h14 : hasField s "hume" = false := hs _ (by simp [recognizedStatusFields])
  have h15 : hasField s "wath" = false := hs _ (by simp [recognizedStatusFields])
  have e1 : hasField e "p25r" = false :=
    he _ (by simp [recognizedEnvironmentalFields])
  have e2 : hasField e "p10r" = false :=
    he _ (by simp [recognizedEnvironmentalFields])
  have e3 : hasField e "pm25" = false :=
    he _ (by simp [recognizedEnvironmentalFields])
  have e4 : hasField e "pm10" = false :=
    he _ (by simp [recognizedEnvironmentalFields])
  have e5 : hasField e "va10" = false :=
    he _ (by simp [recognizedEnvironmentalFields])
  have e6 : hasField e "noxl" = false :=
    he _ (by simp [recognizedEnvironmentalFields])
  have e7 : hasField e "co2r" = false :=
    he _ (by simp [recognizedEnvironmentalFields])
  have e8 : hasField e "hact" = false :=
    he _ (by simp [recognizedEnvironmentalFields])
  have e9 : hasField e "tact" = false :=
    he _ (by simp [recognizedEnvironmentalFields])
  have cb : basicFanConfidence s e = 0 := by
    norm_num [basicFanConfidence, hasFields, pymin, h1, h2, h3, h6]
  have co : advancedOscillationConfidence s e = 0 := by
    norm_num [advancedOscillationConfidence, hasFields, h7, h8]
  have cp : purificationConfidence s e = 0 := by
    norm_num [purificationConfidence, pymin, h9, h10, h11, h12, e1, e2, e3, e4]
  have ce : advancedEnvironmentalConfidence s e = 0 := by
    norm_num [advancedEnvironmentalConfidence, e5, e6, e7]
  have ch : heatingConfidence s e = 0 := by norm_num [heatingConfidence, h13]
  have cu : humidificationConfidence s e = 0 := by
    norm_num [humidificationConfidence, h14]
  have db : basicFanDetect s e = [] := by
    simp [basicFanDetect, hasFields, h1, h2, h3, h4, h5, h6]
  have dao : advancedOscillationDetect s e = [] := by
    simp [advancedOscillationDetect, hasFields, h7, h8]
  have dp : purificationDetect s e = [] := by
    simp [purificationDetect, h9, h10, h11, h12, e1, e2, e3, e4]
  have de : advancedEnvironmentalDetect s e = [] := by
    simp [advancedEnvironmentalDetect, e5, e6, e7, e8, e9]
  have dh : heatingDetect s e = [] := by simp [heatingDetect, h13]
  have du : humidificationDetect s e = [] := by
    simp [humidificationDetect, h14, h15]
  have hres : detectorResults s e =
      [ ⟨"BasicFanDetector", [], 0⟩,
        ⟨"AdvancedOscillationDetector", [], 0⟩,
        ⟨"PurificationDetector", [], 0⟩,
        ⟨"AdvancedEnvironmentalDetector", [], 0⟩,
        ⟨"HeatingDetector", [], 0⟩,
        ⟨"HumidificationDetector", [], 0⟩ ] := by
    simp [detectorResults, cb, co, cp, ce, ch, cu, db, dao, dp, de, dh, du]
  have hfil : (detectorResults s e).filter isRelevant = [] := by
    rw [hres]
    norm_num [List.filter_cons, isRelevant]
  have hcaps : allCapabilitiesList (detectorResults s e) = [] := by
    rw [hres]; simp [allCapabilitiesList]
  have hconf : calculateIntelligentConfidence (detectorResults s e)
      (allCapabilitiesList (detectorResults s e)) = 0 := by
    rw [calculateIntelligentConfidence_def, hfil, hres]
    simp
  refine ⟨?_, ?_, ?_⟩
  · rw [show (discoverCapabilities s e).confidence_score
      = calculateIntelligentConfidence (detectorResults s e)
          (allCapabilitiesList (detectorResults s e)) from rfl, hconf]
  · rw [show (discoverCapabilities s e).device_type_hint
      = suggestDeviceType (allCapabilitiesList (detectorResults s e)) from rfl,
      hcaps]
    decide
  · rw [show (discoverCapabilities s e).discovered_capabilities
      = allCapabilitiesList (detectorResults s e) from rfl, hcaps]

/-- Witness for C5 at the empty telemetry maps. -/
theorem unrecognized_fields_unknown_device_witness :
    (∀ f ∈ recognizedStatusFields, hasField [] f = false) ∧
    (∀ f ∈ recognizedEnvironmentalFields, hasField [] f = false) ∧
    ((discoverCapabilities [] []).confidence_score = 0 ∧
     (discoverCapabilities [] []).device_type_hint = "UnknownDevice" ∧
     (discoverCapabilities [] []).discovered_capabilities = []) :=
  ⟨by decide, by decide,
    unrecognized_fields_unknown_device [] [] (by decide) (by decide)⟩

theorem calc_eq_spec_formula (results : List DetectorResult)
    (hne : results.isEmpty = false) :
    calculateIntelligentConfidence results (allCapabilitiesList results) =
      pymin 1 (specBaseConfidence results +
        specCoherenceBonus (allCapabilitiesList results)) := by
  rw [calculateIntelligentConfidence_def]
  simp only [hne, Bool.false_eq_true, if_false]
  by_cases hrel : (results.filter isRelevant).isEmpty
  · have hnil : results.filter isRelevant = [] := List.isEmpty_iff.mp hrel
    have hcapsnil : allCapabilitiesList results = [] :=
      allCapabilitiesList_eq_nil results
        (relevant_filter_capabilities_nil results hnil)
    rw [if_pos hrel]
    norm_num [specBaseConfidence, specCoherenceBonus, pymin, hnil, hcapsnil]
  · have hfil_ne : results.filter isRelevant ≠ [] :=
      fun hh => hrel (by simp [hh])
    rw [if_neg hrel]
    simp only [foldl_totalsStep, zero_add]
    have hS2pos : 0 < (List.map
        (fun r => detectorWeight r.detector r.capabilities.length)
        (results.filter isRelevant)).sum := by
      apply List.sum_pos
      · intro x hx
        obtain ⟨r, _, rfl⟩ := List.mem_map.mp hx
        exact detectorWeight_pos _ _
      · simpa using hfil_ne
    rw [if_pos hS2pos, coherenceBonus_eq_spec]
    rfl

/-- C3: the overall confidence equals min(1, base + bonus) where base is the
weighted mean of the relevant detectors' confidences with the fixed weight
table, and bonus is the additive coherence bonus capped at 0.30. -/
theorem confidence_weighted_mean_formula (s e : DataMap) :
    (discoverCapabilities s e).confidence_score =
      pymin 1 (specBaseConfidence (detectorResults s e) +
        specCoherenceBonus (discoverCapabilities s e).discovered_capabilities) := by
  rw [show (discoverCapabilities s e).confidence_score
    = calculateIntelligentConfidence (detectorResults s e)
        (allCapabilitiesList (detectorResults s e)) from rfl,
    show (discoverCapabilities s e).discovered_capabilities
    = allCapabilitiesList (detectorResults s e) from rfl]
  exact calc_eq_spec_formula (detectorResults s e) rfl

theorem basicFanConfidence_nonneg (s e : DataMap) :
    0 ≤ basicFanConfidence s e := by
  simp only [basicFanConfidence]
  split_ifs <;> norm_num [pymin]

theorem advancedOscillationConfidence_nonneg (s e : DataMap) :
    0 ≤ advancedOscillationConfidence s e := by
  simp only [advancedOscillationConfidence]
  split_ifs <;> norm_num

theorem purificationConfidence_nonneg (s e : DataMap) :
    0 ≤ purificationConfidence s e := by
  simp only [purificationConfidence]
  split_ifs <;> norm_num [pymin]

theorem advancedEnvironmentalConfidence_nonneg (s e : DataMap) :
    0 ≤ advancedEnvironmentalConfidence s e := by
  simp only [advancedEnvironmentalConfidence]
  positivity

theorem heatingConfidence_nonneg (s e : DataMap) : 0 ≤ heatingConfidence s e := by
  simp only [heatingConfidence]
  split_ifs <;> norm_num

theorem humidificationConfidence_nonneg (s e : DataMap) :
    0 ≤ humidificationConfidence s e := by
  simp only [humidificationConfidence]
  split_ifs <;> norm_num

theorem calculateIntelligentConfidence_bounds (results : List DetectorResult)
    (caps : List DeviceCapability) (hconf : ∀ r ∈ results, 0 ≤ r.confidence) :
    0 ≤ calculateIntelligentConfidence results caps ∧
    calculateIntelligentConfidence results caps ≤ 1 := by
  rw [calculateIntelligentConfidence_def]
  by_cases h1 : results.isEmpty
  · simp [h1]
  · simp only [h1, Bool.false_eq_true, if_false]
    by_cases h2 : (results.filter isRelevant).isEmpty
    · simp [h2]
    · simp only [h2, Bool.false_eq_true, if_false, foldl_totalsStep, zero_add]
      have hS1 : 0 ≤ (List.map
          (fun r => r.confidence * detectorWeight r.detector r.capabilities.length)
          (results.filter isRelevant)).sum := by
        apply List.sum_nonneg
        intro x hx
        obtain ⟨r, hr, rfl⟩ := List.mem_map.mp hx
        exact mul_nonneg (hconf r (List.mem_of_mem_filter hr))
          (detectorWeight_nonneg _ _)
      have hbase : 0 ≤ (if 0 < (List.map
          (fun r => detectorWeight r.detector r.capabilities.length)
          (results.filter isRelevant)).sum then
            (List.map (fun r =>
              r.confidence * detectorWeight r.detector r.capabilities.length)
              (results.filter isRelevant)).sum /
            (List.map (fun r => detectorWeight r.detector r.capabilities.length)
              (results.filter isRelevant)).sum
          else 0) := by
        split_ifs with h
        · exact div_nonneg hS1 (le_of_lt h)
        · exact le_refl 0
      constructor
      · exact pymin_nonneg 1 _ (by norm_num)
          (add_nonneg hbase (coherenceBonus_nonneg caps))
      · exact pymin_le_left 1 _

/-- C4: for every pair of input maps the overall confidence score lies in the
closed unit interval. -/
theorem confidence_score_unit_interval (s e : DataMap) :
    0 ≤ (discoverCapabilities s e).confidence_score ∧
    (discoverCapabilities s e).confidence_score ≤ 1 := by
  rw [show (discoverCapabilities s e).confidence_score
    = calculateIntelligentConfidence (detectorResults s e)
        (allCapabilitiesList (detectorResults s e)) from rfl]
  apply calculateIntelligentConfidence_bounds
  intro r hr
  simp only [detectorResults, List.mem_cons, List.not_mem_nil, or_false] at hr
  rcases hr with rfl | rfl | rfl | rfl | rfl | rfl
  · exact basicFanConfidence_nonneg s e
  · exact advancedOscillationConfidence_nonneg s e
  · exact purificationConfidence_nonneg s e
  · exact advancedEnvironmentalConfidence_nonneg s e
  · exact heatingConfidence_nonneg s e
  · exact humidificationConfidence_nonneg s e

end Libdyson
